import Mathlib

/-!
Shallow embedding of the Multilingual AI Interview Agent backend
(`app.py`, `langchain_agent.py`), covering the response-normalization
pipeline of `InterviewAgent.evaluate_answer`, the heuristic fallback
evaluation, the FIFO memory pruning of `_manage_memory_threshold`, the
adaptive-difficulty update, and the Flask session state machine
(`start_interview`, `get_next_question`, `evaluate_answer`,
`generate_report`).

Numeric ratings are modelled as CPython floats (`PyFloat`): a finite
value, idealized as an exact rational (`ℚ`), or one of `nan`, `inf`,
`-inf` — `json.loads` accepts the `NaN`/`Infinity`/`-Infinity` literals
by default and `float('nan')`/`float('inf')` succeed, and `nan`
compares false with everything, so it bypasses the source's
out-of-range clamp.  Python's `round(x, 2)` (round-half-to-even) is
modelled exactly on the finite values and fixes the non-finite ones.
The JSON scanner tracks container depth against CPython's default
recursion limit, distinguishing a `RecursionError` from a
`json.JSONDecodeError`.  Python strings are modelled as Lean `String`s
with explicit helpers mirroring the Python string methods used by the
source (`strip`, `lower`, `split`, `count`, `rfind`, `endswith`,
containment).  `Char.toLower` covers the ASCII range, which is all the
source relies on.
-/

/-! ### Python string primitives -/

/-- Python whitespace characters (ASCII range), as used by `str.strip()`
and no-argument `str.split()`. -/
def pyIsSpace (c : Char) : Bool :=
  c = ' ' ∨ c = '\t' ∨ c = '\n' ∨ c = '\r' ∨ c = Char.ofNat 11 ∨ c = Char.ofNat 12

/-- Python `str.strip()` on a character list. -/
def pyStripList (s : List Char) : List Char :=
  ((s.dropWhile pyIsSpace).reverse.dropWhile pyIsSpace).reverse

/-- Python `str.strip()`. -/
def pyStrip (s : String) : String :=
  String.mk (pyStripList s.toList)

/-- Python `str.lower()` (ASCII range). -/
def pyLower (s : String) : String :=
  String.mk (s.toList.map Char.toLower)

/-- Does `pat` occur as a leading block of `s`? (helper for substring search) -/
def listStartsWith : List Char → List Char → Bool
  | _, [] => true
  | [], _ :: _ => false
  | c :: cs, p :: ps => c = p && listStartsWith cs ps

/-- Index of the first occurrence of `pat` in `s`, if any. -/
def listFindSubGo : List Char → List Char → Nat → Option Nat
  | [], pat, i => if listStartsWith [] pat then some i else none
  | c :: rest, pat, i =>
    if listStartsWith (c :: rest) pat then some i else listFindSubGo rest pat (i + 1)

/-- Index of the first occurrence of `pat` in `s`, if any. -/
def listFindSub (s pat : List Char) : Option Nat :=
  listFindSubGo s pat 0

/-- Python `pat in s` substring containment. -/
def strContains (s pat : String) : Bool :=
  (listFindSub s.toList pat.toList).isSome

/-- Python `s.count(c)` for a single character. -/
def listCountChar (s : List Char) (c : Char) : Nat :=
  s.foldl (fun n x => if x = c then n + 1 else n) 0

/-- Python `s.endswith(pat)`. -/
def listEndsWith (s pat : List Char) : Bool :=
  if pat.length ≤ s.length then decide (s.drop (s.length - pat.length) = pat) else false

/-- Python `s.rfind(c, 0, stop)`: highest index `< stop` (a Python slice
bound, so negative values count from the end) holding `c`, else `-1`. -/
def pyRfindCharIn (s : List Char) (c : Char) (stop : Int) : Int :=
  let n : Int := s.length
  let e := if stop < 0 then n + stop else stop
  let e2 := (min (max e 0) n).toNat
  (List.range e2).foldl
    (fun acc i => if s.getD i (Char.ofNat 0) = c then (i : Int) else acc) (-1)

/-- Python `s.rfind(c)`. -/
def pyRfindChar (s : List Char) (c : Char) : Int :=
  pyRfindCharIn s c (s.length)

/-- Python `s.split(sep)` for a non-empty separator (fuelled recursion;
the fuel `s.length + 1` always suffices since each step consumes past
one occurrence of `sep`). -/
def pySplitGo : Nat → List Char → List Char → List (List Char)
  | 0, _, s => [s]
  | fuel + 1, sep, s =>
    match listFindSub s sep with
    | none => [s]
    | some i => s.take i :: pySplitGo fuel sep (s.drop (i + sep.length))

/-- Python `s.split(sep)`. -/
def pySplit (s sep : String) : List String :=
  (pySplitGo (s.toList.length + 1) sep.toList s.toList).map String.mk

/-- Python no-argument `s.split()`: whitespace-delimited words, no empties. -/
def pyWordsGo : Nat → List Char → List (List Char)
  | 0, _ => []
  | fuel + 1, s =>
    match s.dropWhile pyIsSpace with
    | [] => []
    | c :: rest =>
      let w := (c :: rest).takeWhile (fun x => ¬ pyIsSpace x)
      w :: pyWordsGo fuel ((c :: rest).drop w.length)

/-- Python `len(s.split())`: the whitespace-separated word count. -/
def pyWordCount (s : String) : Nat :=
  (pyWordsGo (s.toList.length + 1) s.toList).length

/-! ### Rating arithmetic: Python `float` clamp and `round(x, 2)` -/

/-- The finite-float case of the clamp of `evaluate_answer` lines
252-254: clamp the coerced rating into `[1.0, 10.0]` only when it is out
of range (`max(1.0, min(10.0, r))`).  `clampRatingF` below extends this
to all CPython float values. -/
def clampRating (r : ℚ) : ℚ :=
  if r < 1 ∨ 10 < r then max 1 (min 10 r) else r

/-- Round-half-to-even to the nearest integer, as Python's `round` does. -/
def roundHalfEven (q : ℚ) : ℤ :=
  if Int.fract q = 1 / 2 then (if ⌊q⌋ % 2 = 0 then ⌊q⌋ else ⌊q⌋ + 1) else round q

/-- Python `round(q, 2)` modelled exactly on `ℚ`. -/
def pyRound2 (q : ℚ) : ℚ :=
  (roundHalfEven (q * 100) : ℚ) / 100

/-- A CPython float as it occurs in the pipeline: a finite value
(idealized as an exact rational) or one of the non-finite values `nan`,
`inf`, `-inf`, which `json.loads` (via its `NaN`/`Infinity`/`-Infinity`
literals, accepted by default) and `float('nan')`/`float('inf')`
produce. -/
inductive PyFloat where
  | finite (q : ℚ)
  | nan
  | inf
  | ninf
deriving DecidableEq, Repr

/-- Python `<` on floats: `nan` compares false with everything,
`-inf < finite < inf`. -/
def PyFloat.lt : PyFloat → PyFloat → Bool
  | PyFloat.finite a, PyFloat.finite b => decide (a < b)
  | PyFloat.nan, _ => false
  | _, PyFloat.nan => false
  | PyFloat.ninf, PyFloat.ninf => false
  | PyFloat.ninf, _ => true
  | _, PyFloat.ninf => false
  | PyFloat.inf, _ => false
  | PyFloat.finite _, PyFloat.inf => true

/-- Python two-argument `min(a, b)`: returns `b` only when `b < a`. -/
def pyMin (a b : PyFloat) : PyFloat :=
  if PyFloat.lt b a then b else a

/-- Python two-argument `max(a, b)`: returns `b` only when `a < b`. -/
def pyMax (a b : PyFloat) : PyFloat :=
  if PyFloat.lt a b then b else a

/-- `evaluate_answer` lines 252-254 on CPython floats: the clamp runs
only when `rating < 1.0 or rating > 10.0`, so `nan` (for which both
comparisons are false) passes through unclamped, while `inf`/`-inf`
clamp to 10.0/1.0 via `max(1.0, min(10.0, rating))`. -/
def clampRatingF (r : PyFloat) : PyFloat :=
  if PyFloat.lt r (PyFloat.finite 1) || PyFloat.lt (PyFloat.finite 10) r then
    pyMax (PyFloat.finite 1) (pyMin (PyFloat.finite 10) r)
  else r

/-- Python `round(x, 2)` on CPython floats: `round(nan, 2) = nan` and
`round(±inf, 2) = ±inf`. -/
def pyRound2F : PyFloat → PyFloat
  | PyFloat.finite q => PyFloat.finite (pyRound2 q)
  | x => x

/-- Is this float a finite value in the advertised rating range
`[1.00, 10.00]`? -/
def ratingInBounds : PyFloat → Bool
  | PyFloat.finite q => decide (1 ≤ q) && decide (q ≤ 10)
  | _ => false

/-! ### Adaptive difficulty (`app.py` lines 351-372) -/

/-- `difficulty_order = ['Easy', 'Medium', 'Hard']`. -/
def difficultyOrder : List String := ["Easy", "Medium", "Hard"]

/-- The adaptive-difficulty update of `/api/evaluate` (`app.py` 356-369):
`rating > 7.0` steps up one level when possible, `rating < 4.0` steps
down one level when possible, anything else leaves the level unchanged. -/
def nextDifficulty (currentDifficulty : String) (rating : ℚ) : String :=
  let currentIndex := difficultyOrder.indexOf currentDifficulty
  if 7 < rating then
    if currentIndex < difficultyOrder.length - 1 then
      difficultyOrder.getD (currentIndex + 1) currentDifficulty
    else currentDifficulty
  else if rating < 4 then
    if 0 < currentIndex then
      difficultyOrder.getD (currentIndex - 1) currentDifficulty
    else currentDifficulty
  else currentDifficulty

/-! ### Structured evaluation records -/

/-- The four-field evaluation record produced by
`InterviewAgent.evaluate_answer` (the fields consumed by `app.py`). -/
structure Evaluation where
  rating : ℚ
  strengths : String
  improvements : String
  missing_points : String
deriving DecidableEq, Repr

/-- Sentinel `missing_points` text of the heuristic fallback. -/
def fallbackMissingPoints : String :=
  "Unable to parse detailed feedback from evaluation system"

/-- The `dont_know_phrases` list of `evaluate_answer` (lines 281-282). -/
def dontKnowPhrases : List String :=
  ["i dont know", "i don't know", "idk", "no idea", "dont know",
   "don't know", "not sure", "no clue"]

/-- Heuristic fallback evaluation (`evaluate_answer` lines 276-307):
a pure function of the answer text alone. -/
def fallbackEvaluation (answer : String) : Evaluation :=
  let answerLower := pyStrip (pyLower answer)
  let answerLength := pyWordCount answer
  let isDontKnow := dontKnowPhrases.any (fun phrase => strContains answerLower phrase)
  if isDontKnow ∨ answerLength < 3 then
    { rating := 3 / 2
      strengths := "Candidate was honest about not knowing"
      improvements := "Study the topic and provide a substantive answer"
      missing_points := fallbackMissingPoints }
  else if answerLength < 10 then
    { rating := 3
      strengths := "Brief attempt at answering"
      improvements := "Provide more detailed explanation with examples"
      missing_points := fallbackMissingPoints }
  else if answerLength < 30 then
    { rating := 5
      strengths := "Provided some relevant information"
      improvements := "Expand on concepts and add more depth"
      missing_points := fallbackMissingPoints }
  else
    { rating := 6
      strengths := "Detailed response provided"
      improvements := "Structure could be improved for clarity"
      missing_points := fallbackMissingPoints }

/-! ### FIFO conversation-memory pruning (`langchain_agent.py` 93-103) -/

/-- `_manage_memory_threshold`: when more than 20 stored messages,
drop the oldest 10. -/
def manageMemoryThreshold (messages : List String) : List String :=
  if 20 < messages.length then messages.drop 10 else messages

/-! ### Flask session state machine (`app.py`) -/

/-- One entry of `session['interview_history']` (`app.py` 333-340). -/
structure HistoryEntry where
  question : String
  answer : String
  rating : ℚ
  strengths : String
  improvements : String
  missing_points : String
deriving DecidableEq, Repr

/-- The Flask session keys used by the interview endpoints.  Keys that a
fresh session lacks (`current_question`, `last_rating`, `resume_summary`)
are `Option`-valued; `start_interview` overwrites the configuration keys
and resets history and counter but does not touch `current_question`. -/
structure Session where
  resumeSummary : Option String
  role : String
  difficulty : String
  modelId : String
  language : String
  sttMode : String
  hinglishMode : Bool
  interviewHistory : List HistoryEntry
  questionCount : Nat
  currentQuestion : Option String
  lastRating : Option ℚ
deriving DecidableEq, Repr

/-- A fresh Flask session right after a successful resume upload:
`resume_summary` is set, no interview keys exist yet. -/
def Session.afterUpload (summary : String) : Session :=
  { resumeSummary := some summary
    role := ""
    difficulty := ""
    modelId := ""
    language := ""
    sttMode := ""
    hinglishMode := false
    interviewHistory := []
    questionCount := 0
    currentQuestion := none
    lastRating := none }

/-- `/api/start-interview` session mutation (`app.py` 178-194): stores the
configuration, overrides the language to `'hi'` when `hinglish_mode` is
set (`data.get('hinglish_mode', False)`, `data.get('stt_mode', 'browser')`),
and resets `interview_history` and `question_count`. -/
def startInterview (s : Session) (role difficulty modelId language : String)
    (sttMode : Option String) (hinglishMode : Option Bool) : Session :=
  let hm := hinglishMode.getD false
  { s with
    role := role
    difficulty := difficulty
    modelId := modelId
    language := if hm then "hi" else language
    sttMode := sttMode.getD "browser"
    hinglishMode := hm
    interviewHistory := []
    questionCount := 0 }

/-- The deterministic session mutation of `/api/next-question`
(`app.py` 235-237): the generated question (an LLM output, passed in as
an oracle argument) becomes the pending `current_question` and the
question counter is incremented. -/
def nextQuestionOp (s : Session) (question : String) : Session :=
  { s with currentQuestion := some question, questionCount := s.questionCount + 1 }

/-- Error responses returned by the Flask endpoints as JSON with an
HTTP 4xx status: recoverable conditions, not crashes. -/
inductive ApiError where
  | badRequest (message : String)
deriving DecidableEq, Repr

/-- The JSON payload of a successful `/api/evaluate` response. -/
structure EvalResponse where
  evaluation : Evaluation
  updatedDifficulty : String
  previousDifficulty : String
  totalQuestions : Nat
deriving DecidableEq, Repr

/-- `/api/evaluate` (`app.py` 304-381), deterministic part: the answer's
evaluation (an LLM-derived record, passed in as an oracle argument) is
recorded.  Returns the (possibly unchanged) session together with the
response.  Precondition checks mirror lines 311-316: missing answer,
then missing `current_question`, each leaving the session untouched. -/
def evaluateAnswerEndpoint (s : Session) (answer : Option String)
    (ev : Evaluation) : Session × Except ApiError EvalResponse :=
  match answer with
  | none => (s, Except.error (ApiError.badRequest "No answer provided"))
  | some a =>
    match s.currentQuestion with
    | none => (s, Except.error (ApiError.badRequest "No active question to evaluate"))
    | some q =>
      let entry : HistoryEntry :=
        { question := q
          answer := a
          rating := ev.rating
          strengths := ev.strengths
          improvements := ev.improvements
          missing_points := ev.missing_points }
      let hist := s.interviewHistory ++ [entry]
      let currentDifficulty := s.difficulty
      let newDifficulty := nextDifficulty currentDifficulty ev.rating
      let s' := { s with
        interviewHistory := hist
        lastRating := some ev.rating
        difficulty := newDifficulty }
      (s', Except.ok
        { evaluation := ev
          updatedDifficulty := newDifficulty
          previousDifficulty := currentDifficulty
          totalQuestions := hist.length })

/-- The immutable report bundle assembled by `/api/report`
(`app.py` 416-425). -/
structure ReportBundle where
  role : String
  difficulty : String
  model : String
  language : String
  numQuestions : Nat
  history : List HistoryEntry
  overallSummary : String
  avgRating : ℚ
deriving DecidableEq, Repr

/-- `/api/report` (`app.py` 397-425), deterministic part: fails exactly
when the interview history is empty (line 398); otherwise builds the
report bundle whose `avg_rating` is the arithmetic mean of the stored
ratings (line 424).  The narrative overall summary is an LLM output,
passed in as an oracle argument. -/
def generateReport (s : Session) (overallSummary : String) :
    Except ApiError ReportBundle :=
  if s.interviewHistory = [] then
    Except.error (ApiError.badRequest "No interview data available")
  else
    Except.ok
      { role := s.role
        difficulty := s.difficulty
        model := s.modelId
        language := s.language
        numQuestions := s.interviewHistory.length
        history := s.interviewHistory
        overallSummary := overallSummary
        avgRating := ((s.interviewHistory.map HistoryEntry.rating).sum) /
          (s.interviewHistory.length : ℚ) }

/-- One question/answer round: `/api/next-question` followed by
`/api/evaluate` (state part). -/
def runPairs : Session → List (String × String × Evaluation) → Session
  | s, [] => s
  | s, (q, a, ev) :: rest =>
    runPairs (evaluateAnswerEndpoint (nextQuestionOp s q) (some a) ev).1 rest

/-! ### Prompt-template selection (`langchain_agent.py` 141, 184-190) -/

/-- Identifiers for the prompt templates of `prompts.py`. -/
inductive PromptId where
  | questionEN
  | questionHI
  | evalENGemini
  | evalENOpenrouter
  | evalHIGemini
  | evalHIOpenrouter
deriving DecidableEq, Repr

/-- `generate_question` line 141: prompt choice by agent language. -/
def questionPromptFor (language : String) : PromptId :=
  if language = "hi" then PromptId.questionHI else PromptId.questionEN

/-- `evaluate_answer` lines 184-190: prompt choice by agent language and
model provider (`'gemini' in model_id.lower()`). -/
def evalPromptFor (language modelId : String) : PromptId :=
  let isGemini := strContains (pyLower modelId) "gemini"
  if language = "hi" then
    if isGemini then PromptId.evalHIGemini else PromptId.evalHIOpenrouter
  else
    if isGemini then PromptId.evalENGemini else PromptId.evalENOpenrouter

/-! ### Python values and exceptions for the normalization pipeline

`evaluate_answer` feeds the (cleaned, repaired) model text to
`json.loads` and then manipulates the resulting Python value with
dynamically-typed operations (`in`, item access, item assignment,
`float(...)`, `str(...)`).  We model parsed JSON values and those
operations, including the exceptions they raise per receiver type. -/

/-- A parsed JSON value (the possible results of `json.loads`).
Numbers are CPython floats/ints: `json.loads` also accepts the
`NaN`/`Infinity`/`-Infinity` literals by default. -/
inductive JsonVal where
  | null
  | bool (b : Bool)
  | num (x : PyFloat)
  | str (s : String)
  | arr (items : List JsonVal)
  | obj (entries : List (String × JsonVal))

/-- The Python exception classes that can arise in the pipeline.
`json.JSONDecodeError` is a subclass of `ValueError`; the handler at
line 268 catches exactly these two, everything else falls to the
`except Exception` handler at line 308. -/
inductive PyErr where
  | jsonDecodeError (message : String)
  | valueError (message : String)
  | typeError (message : String)
  | keyError (message : String)
  | recursionError (message : String)
deriving DecidableEq, Repr

/-- Is this exception caught by the
`except (json.JSONDecodeError, ValueError)` handler (line 268)? -/
def PyErr.caughtAsParse : PyErr → Bool
  | PyErr.jsonDecodeError _ => true
  | PyErr.valueError _ => true
  | _ => false

/-- Python dict lookup on the parsed entry list (later duplicate wins,
matching dict construction). -/
def objLookup (entries : List (String × JsonVal)) (k : String) : Option JsonVal :=
  (entries.reverse.find? (fun e => decide (e.1 = k))).map (fun e => e.2)

/-- Python dict assignment: replace in place if the key exists,
otherwise append. -/
def objSet (entries : List (String × JsonVal)) (k : String) (v : JsonVal) :
    List (String × JsonVal) :=
  if entries.any (fun e => decide (e.1 = k)) then
    entries.map (fun e => if e.1 = k then (k, v) else e)
  else entries ++ [(k, v)]

/-- Python `key in value` for each receiver type: dict key test, list
membership, string substring; numbers, booleans and `None` raise
`TypeError` (this is how a bare JSON scalar escapes the parse handler). -/
def pyContains (v : JsonVal) (key : String) : Except PyErr Bool :=
  match v with
  | JsonVal.obj entries => Except.ok (objLookup entries key).isSome
  | JsonVal.arr items =>
    Except.ok (items.any (fun it =>
      match it with
      | JsonVal.str s => decide (s = key)
      | _ => false))
  | JsonVal.str s => Except.ok (strContains s key)
  | JsonVal.num _ => Except.error (PyErr.typeError "argument of type 'int' is not iterable")
  | JsonVal.bool _ => Except.error (PyErr.typeError "argument of type 'bool' is not iterable")
  | JsonVal.null => Except.error (PyErr.typeError "argument of type 'NoneType' is not iterable")

/-- Python `value[key]` with a string key. -/
def pyGetItem (v : JsonVal) (key : String) : Except PyErr JsonVal :=
  match v with
  | JsonVal.obj entries =>
    match objLookup entries key with
    | some x => Except.ok x
    | none => Except.error (PyErr.keyError key)
  | JsonVal.str _ => Except.error (PyErr.typeError "string indices must be integers")
  | JsonVal.arr _ => Except.error (PyErr.typeError "list indices must be integers, not str")
  | _ => Except.error (PyErr.typeError "object is not subscriptable")

/-- Python `value[key] = x` with a string key. -/
def pySetItem (v : JsonVal) (key : String) (x : JsonVal) : Except PyErr JsonVal :=
  match v with
  | JsonVal.obj entries => Except.ok (JsonVal.obj (objSet entries key x))
  | JsonVal.str _ =>
    Except.error (PyErr.typeError "'str' object does not support item assignment")
  | JsonVal.arr _ => Except.error (PyErr.typeError "list indices must be integers, not str")
  | _ => Except.error (PyErr.typeError "object does not support item assignment")

/-- Rendering of a finite parsed JSON number by Python `str()`:
integers print without a decimal point.  (Exact float formatting of
non-integers is not modelled; no claim depends on the rendered digits.) -/
def ratStr (q : ℚ) : String :=
  if q.den = 1 then toString q.num else toString q

/-- Rendering of a CPython float by `str()`. -/
def pyFloatStr : PyFloat → String
  | PyFloat.finite q => ratStr q
  | PyFloat.nan => "nan"
  | PyFloat.inf => "inf"
  | PyFloat.ninf => "-inf"

/-- Python `str(value)` / `repr(value)` on parsed JSON values (`repr`,
used inside containers, quotes strings). -/
def pyStrRender : Bool → JsonVal → String
  | _, JsonVal.null => "None"
  | _, JsonVal.bool true => "True"
  | _, JsonVal.bool false => "False"
  | _, JsonVal.num x => pyFloatStr x
  | false, JsonVal.str s => s
  | true, JsonVal.str s => "'" ++ s ++ "'"
  | _, JsonVal.arr items =>
    "[" ++ String.intercalate ", "
      (items.attach.map (fun x => pyStrRender true x.1)) ++ "]"
  | _, JsonVal.obj entries =>
    "\x7b" ++ String.intercalate ", "
      (entries.attach.map (fun e => "'" ++ e.1.1 ++ "': " ++ pyStrRender true e.1.2)) ++
      "\x7d"
termination_by _ v => sizeOf v
decreasing_by
  · simp_wf
    obtain ⟨v', hv⟩ := x
    have h := List.sizeOf_lt_of_mem hv
    simp only []
    omega
  · simp_wf
    obtain ⟨p, hp⟩ := e
    obtain ⟨a, b⟩ := p
    have h := List.sizeOf_lt_of_mem hp
    simp only [Prod.mk.sizeOf_spec] at h
    simp only []
    omega

/-- Python `str(value)` on a parsed JSON value. -/
def pyStr (v : JsonVal) : String :=
  pyStrRender false v

/-- Digit character value. -/
def digitVal (c : Char) : Option Nat :=
  if '0' ≤ c ∧ c ≤ '9' then some (c.toNat - '0'.toNat) else none

/-- Split a leading run of decimal digits off a character list. -/
def takeDigits : List Char → List Nat × List Char
  | [] => ([], [])
  | c :: rest =>
    match digitVal c with
    | some d =>
      let p := takeDigits rest
      (d :: p.1, p.2)
    | none => ([], c :: rest)

/-- Decimal digits to a natural number. -/
def digitsToNat (ds : List Nat) : Nat :=
  ds.foldl (fun a d => a * 10 + d) 0

/-- Parse an optional exponent part `([eE][+-]?digits)?` returning the
exponent and remaining input; `none` on a malformed exponent. -/
def parseExponent (cs : List Char) : Option (Int × List Char) :=
  match cs with
  | 'e' :: rest | 'E' :: rest =>
    let p : Int × List Char :=
      match rest with
      | '+' :: r => (1, r)
      | '-' :: r => (-1, r)
      | r => (1, r)
    let d := takeDigits p.2
    if d.1 = [] then none else some (p.1 * (digitsToNat d.1 : Int), d.2)
  | rest => some (0, rest)

/-- Parse a JSON number (`-?digits(.digits)?([eE][+-]?digits)?`) into an
exact rational together with the remaining input. -/
def parseJsonNumber (cs : List Char) : Option (ℚ × List Char) :=
  let p : ℚ × List Char := match cs with | '-' :: r => (-1, r) | r => (1, r)
  let ip := takeDigits p.2
  if ip.1 = [] then none
  else
    let fp : List Nat × List Char :=
      match ip.2 with
      | '.' :: r => takeDigits r
      | r => ([], r)
    if ip.2 ≠ fp.2 ∧ fp.1 = [] then none
    else
      match parseExponent fp.2 with
      | none => none
      | some (ex, rest) =>
        some (p.1 * (digitsToNat (ip.1 ++ fp.1) : ℚ) *
          (10 : ℚ) ^ (ex - (fp.1.length : Int)), rest)

/-- JSON insignificant whitespace. -/
def jsonIsWs (c : Char) : Bool :=
  c = ' ' ∨ c = '\t' ∨ c = '\n' ∨ c = '\r'

/-- Skip JSON insignificant whitespace. -/
def skipWsL (cs : List Char) : List Char :=
  cs.dropWhile jsonIsWs

/-- Hexadecimal digit value. -/
def hexVal (c : Char) : Option Nat :=
  if '0' ≤ c ∧ c ≤ '9' then some (c.toNat - '0'.toNat)
  else if 'a' ≤ c ∧ c ≤ 'f' then some (c.toNat - 'a'.toNat + 10)
  else if 'A' ≤ c ∧ c ≤ 'F' then some (c.toNat - 'A'.toNat + 10)
  else none

/-- Parse the body of a JSON string (after the opening quote), handling
the standard escapes, with fuel (`length + 1` always suffices). -/
def parseJsonStringGo : Nat → List Char → List Char → Option (String × List Char)
  | 0, _, _ => none
  | fuel + 1, acc, cs =>
    match cs with
    | [] => none
    | c :: rest =>
      if c = Char.ofNat 34 then some (String.mk acc.reverse, rest)
      else if c = '\\' then
        match rest with
        | [] => none
        | e :: rest2 =>
          if e = Char.ofNat 34 then parseJsonStringGo fuel (Char.ofNat 34 :: acc) rest2
          else if e = '\\' then parseJsonStringGo fuel ('\\' :: acc) rest2
          else if e = '/' then parseJsonStringGo fuel ('/' :: acc) rest2
          else if e = 'b' then parseJsonStringGo fuel (Char.ofNat 8 :: acc) rest2
          else if e = 'f' then parseJsonStringGo fuel (Char.ofNat 12 :: acc) rest2
          else if e = 'n' then parseJsonStringGo fuel ('\n' :: acc) rest2
          else if e = 'r' then parseJsonStringGo fuel ('\r' :: acc) rest2
          else if e = 't' then parseJsonStringGo fuel ('\t' :: acc) rest2
          else if e = 'u' then
            match rest2 with
            | h1 :: h2 :: h3 :: h4 :: rest3 =>
              match hexVal h1, hexVal h2, hexVal h3, hexVal h4 with
              | some a, some b, some c3, some d =>
                parseJsonStringGo fuel
                  (Char.ofNat (((a * 16 + b) * 16 + c3) * 16 + d) :: acc) rest3
              | _, _, _, _ => none
            | _ => none
          else none
      else parseJsonStringGo fuel (c :: acc) rest

/-- Match a literal keyword such as `true`, `false`, `null`. -/
def matchLit : List Char → List Char → Option (List Char)
  | cs, [] => some cs
  | [], _ :: _ => none
  | c :: cs, k :: ks => if c = k then matchLit cs ks else none

/-- The two ways the JSON scanner can fail: malformed input (a
`json.JSONDecodeError`), or container nesting beyond the interpreter
recursion limit (a `RecursionError`, which is not a parse error). -/
inductive JsonFail where
  | malformed
  | tooDeep
deriving DecidableEq, Repr

/-- CPython's default `sys.getrecursionlimit()`: the json scanner enters
one recursive call per nested container and raises `RecursionError`
beyond this depth. -/
def jsonRecursionLimit : Nat := 1000

/-- Lift an optional parse result, reading `none` as malformed input. -/
def optToExcept {alpha : Type} : Option alpha -> Except JsonFail alpha
  | some a => Except.ok a
  | none => Except.error JsonFail.malformed

mutual

/-- Parse one JSON value (leading whitespace allowed), returning it with
the remaining input.  `fuel` bounds the number of parsing steps (the
top-level call supplies `length + 1`, which always suffices since every
step first consumes at least one character); `depth` counts enclosing
containers against the interpreter recursion limit. -/
def parseJsonVal : Nat -> Nat -> List Char -> Except JsonFail (JsonVal × List Char)
  | 0, _, _ => Except.error JsonFail.malformed
  | fuel + 1, depth, cs =>
    match skipWsL cs with
    | [] => Except.error JsonFail.malformed
    | c :: rest =>
      if c = Char.ofNat 123 then
        if jsonRecursionLimit ≤ depth then Except.error JsonFail.tooDeep
        else
          match skipWsL rest with
          | d :: rest2 =>
            if d = Char.ofNat 125 then
              Except.ok (JsonVal.obj [], rest2)
            else
              match parseJsonObjItems fuel (depth + 1) (d :: rest2) with
              | Except.ok (entries, rest3) =>
                Except.ok (JsonVal.obj (entries.foldl (fun acc e => objSet acc e.1 e.2) []),
                  rest3)
              | Except.error e => Except.error e
          | [] => Except.error JsonFail.malformed
      else if c = '[' then
        if jsonRecursionLimit ≤ depth then Except.error JsonFail.tooDeep
        else
          match skipWsL rest with
          | d :: rest2 =>
            if d = ']' then Except.ok (JsonVal.arr [], rest2)
            else
              match parseJsonArrItems fuel (depth + 1) (d :: rest2) with
              | Except.ok (items, rest3) => Except.ok (JsonVal.arr items, rest3)
              | Except.error e => Except.error e
          | [] => Except.error JsonFail.malformed
      else if c = Char.ofNat 34 then
        match parseJsonStringGo (rest.length + 1) [] rest with
        | some (s, rest2) => Except.ok (JsonVal.str s, rest2)
        | none => Except.error JsonFail.malformed
      else if c = 't' then
        optToExcept ((matchLit rest ['r', 'u', 'e']).map (fun r => (JsonVal.bool true, r)))
      else if c = 'f' then
        optToExcept ((matchLit rest ['a', 'l', 's', 'e']).map (fun r => (JsonVal.bool false, r)))
      else if c = 'n' then
        optToExcept ((matchLit rest ['u', 'l', 'l']).map (fun r => (JsonVal.null, r)))
      else if c = 'N' then
        optToExcept ((matchLit rest ['a', 'N']).map (fun r => (JsonVal.num PyFloat.nan, r)))
      else if c = 'I' then
        optToExcept ((matchLit rest ['n', 'f', 'i', 'n', 'i', 't', 'y']).map
          (fun r => (JsonVal.num PyFloat.inf, r)))
      else if c = '-' then
        match rest with
        | 'I' :: r2 =>
          optToExcept ((matchLit r2 ['n', 'f', 'i', 'n', 'i', 't', 'y']).map
            (fun r => (JsonVal.num PyFloat.ninf, r)))
        | _ =>
          optToExcept ((parseJsonNumber (c :: rest)).map
            (fun p => (JsonVal.num (PyFloat.finite p.1), p.2)))
      else
        optToExcept ((parseJsonNumber (c :: rest)).map
          (fun p => (JsonVal.num (PyFloat.finite p.1), p.2)))

/-- Parse the comma-separated items of a non-empty JSON array, up to and
including the closing bracket. -/
def parseJsonArrItems : Nat -> Nat -> List Char -> Except JsonFail (List JsonVal × List Char)
  | 0, _, _ => Except.error JsonFail.malformed
  | fuel + 1, depth, cs =>
    match parseJsonVal fuel depth cs with
    | Except.error e => Except.error e
    | Except.ok (v, r) =>
      match skipWsL r with
      | ',' :: r2 =>
        match parseJsonArrItems fuel depth r2 with
        | Except.ok (vs, r3) => Except.ok (v :: vs, r3)
        | Except.error e => Except.error e
      | ']' :: r2 => Except.ok ([v], r2)
      | _ => Except.error JsonFail.malformed

/-- Parse the comma-separated `"key": value` pairs of a non-empty JSON
object, up to and including the closing brace. -/
def parseJsonObjItems :
    Nat -> Nat -> List Char -> Except JsonFail (List (String × JsonVal) × List Char)
  | 0, _, _ => Except.error JsonFail.malformed
  | fuel + 1, depth, cs =>
    match skipWsL cs with
    | q :: r =>
      if q = Char.ofNat 34 then
        match parseJsonStringGo (r.length + 1) [] r with
        | some (k, r1) =>
          match skipWsL r1 with
          | ':' :: r2 =>
            match parseJsonVal fuel depth r2 with
            | Except.ok (v, r3) =>
              match skipWsL r3 with
              | ',' :: r4 =>
                match parseJsonObjItems fuel depth r4 with
                | Except.ok (entries, r5) => Except.ok ((k, v) :: entries, r5)
                | Except.error e => Except.error e
              | d :: r4 =>
                if d = Char.ofNat 125 then Except.ok ([(k, v)], r4)
                else Except.error JsonFail.malformed
              | [] => Except.error JsonFail.malformed
            | Except.error e => Except.error e
          | _ => Except.error JsonFail.malformed
        | none => Except.error JsonFail.malformed
      else Except.error JsonFail.malformed
    | [] => Except.error JsonFail.malformed

end

/-- `json.loads(result)`: parse one JSON document; anything but a single
value surrounded by whitespace raises `json.JSONDecodeError`, and
nesting beyond the recursion limit raises `RecursionError` instead. -/
def pyJsonLoads (s : String) : Except PyErr JsonVal :=
  let cs := s.toList
  match parseJsonVal (cs.length + 1) 0 cs with
  | Except.ok (v, rest) =>
    if skipWsL rest = [] then Except.ok v
    else Except.error (PyErr.jsonDecodeError "Extra data")
  | Except.error JsonFail.tooDeep =>
    Except.error (PyErr.recursionError "maximum recursion depth exceeded")
  | Except.error JsonFail.malformed =>
    Except.error (PyErr.jsonDecodeError "Expecting value")

/-- Python float text accepted by `float(str)`: after stripping
whitespace and case, an optional sign followed by `nan`, `inf`,
`infinity`, or a numeric literal (digits around an optional point, at
least one digit, optional exponent). -/
def parseFloatText (s : String) : Option PyFloat :=
  let cs := (pyStripList s.toList).map Char.toLower
  let p : Bool × List Char :=
    match cs with
    | '+' :: r => (false, r)
    | '-' :: r => (true, r)
    | r => (false, r)
  if p.2 = ['n', 'a', 'n'] then some PyFloat.nan
  else if p.2 = ['i', 'n', 'f'] ∨ p.2 = ['i', 'n', 'f', 'i', 'n', 'i', 't', 'y'] then
    some (if p.1 then PyFloat.ninf else PyFloat.inf)
  else
    let ip := takeDigits p.2
    let fp : List Nat × List Char :=
      match ip.2 with
      | '.' :: r => takeDigits r
      | r => ([], r)
    if ip.1 = [] ∧ fp.1 = [] then none
    else
      match parseExponent fp.2 with
      | none => none
      | some (ex, rest) =>
        if rest = [] then
          some (PyFloat.finite ((if p.1 then (-1 : ℚ) else 1) *
            (digitsToNat (ip.1 ++ fp.1) : ℚ) * (10 : ℚ) ^ (ex - (fp.1.length : Int))))
        else none

/-- Python `float(x)` on a parsed JSON value: numbers pass through
(including `nan`/`inf`), booleans coerce, strings are parsed as float
text (`float('nan')` and `float('inf')` succeed; `ValueError` on
failure), anything else raises `TypeError`. -/
def pyFloat (v : JsonVal) : Except PyErr PyFloat :=
  match v with
  | JsonVal.num x => Except.ok x
  | JsonVal.bool b => Except.ok (PyFloat.finite (if b then 1 else 0))
  | JsonVal.str s =>
    match parseFloatText s with
    | some x => Except.ok x
    | none => Except.error (PyErr.valueError ("could not convert string to float: " ++ s))
  | JsonVal.null =>
    Except.error (PyErr.typeError "float() argument must be a string or a real number, not 'NoneType'")
  | JsonVal.arr _ =>
    Except.error (PyErr.typeError "float() argument must be a string or a real number, not 'list'")
  | JsonVal.obj _ =>
    Except.error (PyErr.typeError "float() argument must be a string or a real number, not 'dict'")

/-! ### The normalization pipeline of `evaluate_answer` (lines 195-311) -/

/-- Markdown code-fence cleanup (`evaluate_answer` lines 203-207):
prefer a ```json fence, else a bare ``` fence, taking the first fenced
segment and stripping it. -/
def stripCodeFences (result : String) : String :=
  if strContains result "```json" then
    pyStrip ((pySplit ((pySplit result "```json").getD 1 "") "```").getD 0 "")
  else if strContains result "```" then
    pyStrip ((pySplit ((pySplit result "```").getD 1 "") "```").getD 0 "")
  else result

/-- Truncated-JSON repair (`evaluate_answer` lines 209-228).  Triggered
when the text ends in `...` or does not end with a closing brace:
the brace imbalance is measured on the incoming text, an ellipsis
causes a cut back to the last quote before the last comma, an odd
number of quotes gets one closing quote appended, and one closing brace
is appended per unmatched opening brace. -/
def repairTruncation (result : String) : String :=
  let cs := result.toList
  if listEndsWith cs "...".toList ∨ ¬ listEndsWith cs [Char.ofNat 125] then
    let openBraces : Int :=
      (listCountChar cs (Char.ofNat 123) : Int) - (listCountChar cs (Char.ofNat 125) : Int)
    let cs1 :=
      if strContains result "..." then
        let lastComma := pyRfindChar cs ','
        let lastQuote := pyRfindCharIn cs (Char.ofNat 34) lastComma
        if 0 < lastQuote then cs.take (lastQuote + 1).toNat else cs
      else cs
    let cs2 := if listCountChar cs1 (Char.ofNat 34) % 2 ≠ 0 then cs1 ++ [Char.ofNat 34] else cs1
    String.mk (cs2 ++ List.replicate openBraces.toNat (Char.ofNat 125))
  else result

/-- Field-presence validation (`evaluate_answer` lines 241-244):
`ValueError` on the first missing required field (`in` itself may raise
`TypeError` on a non-container receiver). -/
def requireField (v : JsonVal) (f : String) : Except PyErr Unit :=
  match pyContains v f with
  | Except.error e => Except.error e
  | Except.ok true => Except.ok ()
  | Except.ok false => Except.error (PyErr.valueError ("Missing required field: " ++ f))

/-- The four-field record the normalizer returns: like `Evaluation`,
but with a CPython-float rating, since a parsed `NaN` rating survives
the out-of-range clamp and is returned as `NaN`. -/
structure EvalRecord where
  rating : PyFloat
  strengths : String
  improvements : String
  missing_points : String
deriving DecidableEq, Repr

/-- Final record assembly (`evaluate_answer` lines 250-260): coerced
rating clamped into `[1, 10]` when out of range (`NaN` passes through
unclamped) then rounded to 2 decimals, and the three text fields passed
through `str(...).strip()`. -/
def finishEvaluation (r : PyFloat) (sv iv mv : JsonVal) : EvalRecord :=
  { rating := pyRound2F (clampRatingF r)
    strengths := pyStrip (pyStr sv)
    improvements := pyStrip (pyStr iv)
    missing_points := pyStrip (pyStr mv) }

/-- The Tier-3 fallback record as returned by the retry loop: the
fallback evaluation with its (always finite) rating as a float. -/
def fallbackRecord (answer : String) : EvalRecord :=
  { rating := PyFloat.finite (fallbackEvaluation answer).rating
    strengths := (fallbackEvaluation answer).strengths
    improvements := (fallbackEvaluation answer).improvements
    missing_points := (fallbackEvaluation answer).missing_points }

/-- Post-parse validation and normalization (`evaluate_answer` lines
234-260) applied to the value returned by `json.loads`: `missing_points`
list/str normalization, required-field validation, `missing_points`
default, rating coercion/clamp/round, and string trimming. -/
def buildEvaluation (parsed : JsonVal) : Except PyErr EvalRecord :=
  -- lines 234-238: normalize `missing_points` when present (list join,
  -- or `str(...)` coercion of a non-string value)
  pyContains parsed "missing_points" >>= fun hasMp =>
  (if hasMp then
    pyGetItem parsed "missing_points" >>= fun mp =>
      match mp with
      | JsonVal.arr items =>
        pySetItem parsed "missing_points"
          (JsonVal.str (String.intercalate ", " (items.map pyStr)))
      | JsonVal.str _ => Except.ok parsed
      | other => pySetItem parsed "missing_points" (JsonVal.str (pyStr other))
  else Except.ok parsed) >>= fun ev1 =>
  -- lines 241-244: required-field validation
  requireField ev1 "rating" >>= fun _ =>
  requireField ev1 "strengths" >>= fun _ =>
  requireField ev1 "improvements" >>= fun _ =>
  -- lines 247-248: default `missing_points` when absent
  pyContains ev1 "missing_points" >>= fun hasMp2 =>
  (if hasMp2 then Except.ok ev1 else pySetItem ev1 "missing_points" (JsonVal.str "N/A")) >>=
    fun ev2 =>
  -- lines 250-260: rating coercion/clamp/round and string trimming
  pyGetItem ev2 "rating" >>= fun rv =>
  pyFloat rv >>= fun r =>
  pyGetItem ev2 "strengths" >>= fun sv =>
  pyGetItem ev2 "improvements" >>= fun iv =>
  pyGetItem ev2 "missing_points" >>= fun mv =>
  Except.ok (finishEvaluation r sv iv mv)

/-- One attempt of the normalization pipeline on one raw model text:
strip surrounding whitespace (`response.content.strip()`), strip code
fences, repair truncation, `json.loads`, then post-parse validation. -/
def processResponse (raw : String) : Except PyErr EvalRecord :=
  match pyJsonLoads (repairTruncation (stripCodeFences (pyStrip raw))) with
  | Except.error e => Except.error e
  | Except.ok parsed => buildEvaluation parsed

/-- The retry loop of `evaluate_answer` with `max_retries = 2`
(lines 195-311), the two model calls supplied as oracle arguments.
On the first attempt every exception is swallowed and the loop retries;
on the last attempt a `json.JSONDecodeError`/`ValueError` produces the
heuristic fallback while any other exception is re-raised to the caller
(line 311). -/
def evaluateAnswerLoop (raw1 raw2 answer : String) : Except PyErr EvalRecord :=
  match processResponse raw1 with
  | Except.ok e => Except.ok e
  | Except.error _ =>
    match processResponse raw2 with
    | Except.ok e => Except.ok e
    | Except.error err =>
      if err.caughtAsParse then Except.ok (fallbackRecord answer)
      else Except.error err

/-- Did the loop raise to its caller? -/
def loopRaises (raw1 raw2 answer : String) : Bool :=
  match evaluateAnswerLoop raw1 raw2 answer with
  | Except.error _ => true
  | Except.ok _ => false

/-! ### Concrete sample data used by witnesses and counterexamples -/

/-- Did an endpoint call succeed? -/
def apiIsOk {α : Type} : Except ApiError α → Bool
  | Except.ok _ => true
  | Except.error _ => false

/-- A sample structured evaluation. -/
def sampleEval : Evaluation :=
  { rating := 5, strengths := "s", improvements := "i", missing_points := "m" }

/-- A session with a pending question awaiting an answer. -/
def pendingSession : Session :=
  { Session.afterUpload "resume summary" with
    currentQuestion := some "Q1"
    difficulty := "Easy" }

/-- A session just configured by `/api/start-interview`. -/
def startedSession : Session :=
  startInterview (Session.afterUpload "resume summary")
    "Data Scientist" "Easy" "gemini-2.5-flash" "en" none none

/-- Three answered turns with ratings 8.2, 3.0 and 5.0. -/
def sampleHistory : List HistoryEntry :=
  [{ question := "q1", answer := "a1", rating := 41 / 5,
     strengths := "s1", improvements := "i1", missing_points := "m1" },
   { question := "q2", answer := "a2", rating := 3,
     strengths := "s2", improvements := "i2", missing_points := "m2" },
   { question := "q3", answer := "a3", rating := 5,
     strengths := "s3", improvements := "i3", missing_points := "m3" }]

/-- A session holding `sampleHistory`. -/
def sampleReportSession : Session :=
  { Session.afterUpload "resume summary" with interviewHistory := sampleHistory }

/-- The report bundle `/api/report` assembles for `sampleReportSession`. -/
def sampleBundle : ReportBundle :=
  { role := ""
    difficulty := ""
    model := ""
    language := ""
    numQuestions := sampleHistory.length
    history := sampleHistory
    overallSummary := "overall"
    avgRating := (sampleHistory.map HistoryEntry.rating).sum / (sampleHistory.length : ℚ) }

/-- A parsed model record whose rating 5.123 passes parsing and
field-presence validation. -/
def c4parsed : JsonVal :=
  JsonVal.obj
    [("rating", JsonVal.num (PyFloat.finite (5123 / 1000))),
     ("strengths", JsonVal.str "s"),
     ("improvements", JsonVal.str "i")]

/-- A parsed model record whose rating is the float `NaN` (the literal
`NaN` is accepted by `json.loads` by default); it passes parsing and
field-presence validation. -/
def c4nanParsed : JsonVal :=
  JsonVal.obj
    [("rating", JsonVal.num PyFloat.nan),
     ("strengths", JsonVal.str "s"),
     ("improvements", JsonVal.str "i")]

/-- The raw model text carrying a `NaN` rating. -/
def nanRatingRaw : String :=
  "\x7b\"rating\": NaN, \"strengths\": \"s\", \"improvements\": \"i\"\x7d"

/-! ### Helper lemmas about rounding and clamping -/

theorem floor_le_roundHalfEven (q : ℚ) : ⌊q⌋ ≤ roundHalfEven q := by
  unfold roundHalfEven
  split
  · split <;> omega
  · rw [round_eq]
    exact Int.le_floor.mpr (by linarith [Int.floor_le q])

theorem roundHalfEven_le (q : ℚ) (n : ℤ) (h : q ≤ (n : ℚ)) : roundHalfEven q ≤ n := by
  unfold roundHalfEven
  split
  · rename_i hf
    rw [← Int.self_sub_floor] at hf
    have hfl : (⌊q⌋ : ℚ) < (n : ℚ) := by linarith
    have hfl2 : ⌊q⌋ < n := by exact_mod_cast hfl
    split <;> omega
  · rw [round_eq]
    have h2 : q + 1 / 2 < ((n : ℚ) + 1) := by linarith
    have h3 : ⌊q + 1 / 2⌋ < n + 1 := by
      rw [Int.floor_lt]
      push_cast
      linarith
    omega

theorem le_roundHalfEven (q : ℚ) (n : ℤ) (h : (n : ℚ) ≤ q) : n ≤ roundHalfEven q := by
  have h1 : n ≤ ⌊q⌋ := Int.le_floor.mpr h
  have h2 := floor_le_roundHalfEven q
  omega

theorem pyRound2_bounds (q : ℚ) (h1 : 1 ≤ q) (h2 : q ≤ 10) :
    1 ≤ pyRound2 q ∧ pyRound2 q ≤ 10 := by
  unfold pyRound2
  have hl : (100 : ℤ) ≤ roundHalfEven (q * 100) :=
    le_roundHalfEven _ 100 (by push_cast; linarith)
  have hu : roundHalfEven (q * 100) ≤ 1000 :=
    roundHalfEven_le _ 1000 (by push_cast; linarith)
  have hl2 : (100 : ℚ) ≤ (roundHalfEven (q * 100) : ℚ) := by exact_mod_cast hl
  have hu2 : (roundHalfEven (q * 100) : ℚ) ≤ 1000 := by exact_mod_cast hu
  constructor <;> [linarith [hl2]; linarith [hu2]]

theorem pyRound2_fix (n : ℤ) : pyRound2 ((n : ℚ) / 100) = (n : ℚ) / 100 := by
  unfold pyRound2
  have h : ((n : ℚ) / 100) * 100 = (n : ℚ) := by field_simp
  rw [h]
  unfold roundHalfEven
  rw [Int.fract_intCast, if_neg (by norm_num), round_intCast]

theorem pyRound2_idem (q : ℚ) : pyRound2 (pyRound2 q) = pyRound2 q :=
  pyRound2_fix (roundHalfEven (q * 100))

theorem clampRating_bounds (r : ℚ) : 1 ≤ clampRating r ∧ clampRating r ≤ 10 := by
  unfold clampRating
  split
  · exact ⟨le_max_left _ _, max_le (by norm_num) (min_le_left _ _)⟩
  · rename_i h
    push_neg at h
    exact ⟨h.1, h.2⟩

theorem clampRating_fix (v : ℚ) (h1 : 1 ≤ v) (h2 : v ≤ 10) : clampRating v = v := by
  unfold clampRating
  rw [if_neg]
  push_neg
  exact ⟨h1, h2⟩

theorem returnedRating_props (r : ℚ) :
    1 ≤ pyRound2 (clampRating r) ∧ pyRound2 (clampRating r) ≤ 10 ∧
    pyRound2 (pyRound2 (clampRating r)) = pyRound2 (clampRating r) ∧
    clampRating (pyRound2 (clampRating r)) = pyRound2 (clampRating r) := by
  obtain ⟨hc1, hc2⟩ := clampRating_bounds r
  obtain ⟨hb1, hb2⟩ := pyRound2_bounds _ hc1 hc2
  exact ⟨hb1, hb2, pyRound2_idem _, clampRating_fix _ hb1 hb2⟩

/-! ### Structure lemmas for the normalization pipeline -/

theorem clampRatingF_finite (q : ℚ) :
    clampRatingF (PyFloat.finite q) = PyFloat.finite (clampRating q) := by
  by_cases h1 : q < 1
  · have h2 : ¬ 10 < q := by linarith
    have hq10 : q < 10 := by linarith
    have hn1q : ¬ 1 < q := by linarith
    simp [clampRatingF, clampRating, pyMax, pyMin, PyFloat.lt, h1, h2, hq10, hn1q,
      min_eq_right (le_of_lt hq10), max_eq_left (le_of_lt h1)]
  · by_cases h2 : 10 < q
    · have hq10 : ¬ q < 10 := by linarith
      have h1q : 1 < q := by linarith
      simp [clampRatingF, clampRating, pyMax, pyMin, PyFloat.lt, h1, h2, hq10, h1q,
        min_eq_left (le_of_lt h2), max_eq_right (by norm_num : (1 : ℚ) ≤ 10)]
    · simp [clampRatingF, clampRating, pyMax, pyMin, PyFloat.lt, h1, h2]

theorem returnedRatingF_props (r : PyFloat) :
    (pyRound2F (clampRatingF r) = PyFloat.nan ↔ r = PyFloat.nan) ∧
    (r ≠ PyFloat.nan → ratingInBounds (pyRound2F (clampRatingF r)) = true) ∧
    pyRound2F (pyRound2F (clampRatingF r)) = pyRound2F (clampRatingF r) ∧
    clampRatingF (pyRound2F (clampRatingF r)) = pyRound2F (clampRatingF r) := by
  have inBounds : ∀ q : ℚ, 1 ≤ q → q ≤ 10 → ratingInBounds (PyFloat.finite q) = true := by
    intro q hq1 hq2
    simp [ratingInBounds, hq1, hq2]
  cases r with
  | finite q =>
    obtain ⟨hb1, hb2, -, -⟩ := returnedRating_props q
    rw [clampRatingF_finite]
    refine ⟨by simp [pyRound2F], fun _ => ?_, ?_, ?_⟩
    · exact inBounds _ hb1 hb2
    · show PyFloat.finite (pyRound2 (pyRound2 (clampRating q))) =
        PyFloat.finite (pyRound2 (clampRating q))
      rw [pyRound2_idem]
    · show clampRatingF (PyFloat.finite (pyRound2 (clampRating q))) =
        PyFloat.finite (pyRound2 (clampRating q))
      rw [clampRatingF_finite, clampRating_fix _ hb1 hb2]
  | nan =>
    have hclamp : clampRatingF PyFloat.nan = PyFloat.nan := by
      simp [clampRatingF, PyFloat.lt]
    rw [hclamp]
    exact ⟨by simp [pyRound2F], fun h => absurd rfl h, rfl, by
      show clampRatingF PyFloat.nan = PyFloat.nan
      exact hclamp⟩
  | inf =>
    have hclamp : clampRatingF PyFloat.inf = PyFloat.finite 10 := by
      simp [clampRatingF, pyMax, pyMin, PyFloat.lt]
    obtain ⟨hb1, hb2⟩ := pyRound2_bounds 10 (by norm_num) (by norm_num)
    rw [hclamp]
    refine ⟨by simp [pyRound2F], fun _ => ?_, ?_, ?_⟩
    · exact inBounds _ hb1 hb2
    · show PyFloat.finite (pyRound2 (pyRound2 10)) = PyFloat.finite (pyRound2 10)
      rw [pyRound2_idem]
    · show clampRatingF (PyFloat.finite (pyRound2 10)) = PyFloat.finite (pyRound2 10)
      rw [clampRatingF_finite, clampRating_fix _ hb1 hb2]
  | ninf =>
    have hclamp : clampRatingF PyFloat.ninf = PyFloat.finite 1 := by
      simp [clampRatingF, pyMax, pyMin, PyFloat.lt]
    obtain ⟨hb1, hb2⟩ := pyRound2_bounds 1 (by norm_num) (by norm_num)
    rw [hclamp]
    refine ⟨by simp [pyRound2F], fun _ => ?_, ?_, ?_⟩
    · exact inBounds _ hb1 hb2
    · show PyFloat.finite (pyRound2 (pyRound2 1)) = PyFloat.finite (pyRound2 1)
      rw [pyRound2_idem]
    · show clampRatingF (PyFloat.finite (pyRound2 1)) = PyFloat.finite (pyRound2 1)
      rw [clampRatingF_finite, clampRating_fix _ hb1 hb2]

theorem finishEvaluation_rating (r : PyFloat) (sv iv mv : JsonVal) :
    ((finishEvaluation r sv iv mv).rating = PyFloat.nan ∨
      ratingInBounds (finishEvaluation r sv iv mv).rating = true) ∧
    pyRound2F (finishEvaluation r sv iv mv).rating = (finishEvaluation r sv iv mv).rating ∧
    clampRatingF (finishEvaluation r sv iv mv).rating = (finishEvaluation r sv iv mv).rating := by
  obtain ⟨hiff, hbound, hidem, hfix⟩ := returnedRatingF_props r
  refine ⟨?_, hidem, hfix⟩
  by_cases hn : r = PyFloat.nan
  · exact Or.inl (hiff.mpr hn)
  · exact Or.inr (hbound hn)

theorem except_bind_ok {α β : Type} {x : Except PyErr α} {f : α → Except PyErr β}
    {b : β} (h : (x >>= f) = Except.ok b) : ∃ a, x = Except.ok a ∧ f a = Except.ok b := by
  cases x with
  | ok a => exact ⟨a, rfl, h⟩
  | error e => exact absurd h (by simp [Bind.bind, Except.bind])

theorem buildEvaluation_ok (parsed : JsonVal) (e : EvalRecord)
    (h : buildEvaluation parsed = Except.ok e) :
    ∃ r sv iv mv, e = finishEvaluation r sv iv mv := by
  unfold buildEvaluation at h
  obtain ⟨a1, -, h⟩ := except_bind_ok h
  obtain ⟨a2, -, h⟩ := except_bind_ok h
  obtain ⟨a3, -, h⟩ := except_bind_ok h
  obtain ⟨a4, -, h⟩ := except_bind_ok h
  obtain ⟨a5, -, h⟩ := except_bind_ok h
  obtain ⟨a6, -, h⟩ := except_bind_ok h
  obtain ⟨a7, -, h⟩ := except_bind_ok h
  obtain ⟨a8, -, h⟩ := except_bind_ok h
  obtain ⟨a9, -, h⟩ := except_bind_ok h
  obtain ⟨a10, -, h⟩ := except_bind_ok h
  obtain ⟨a11, -, h⟩ := except_bind_ok h
  obtain ⟨a12, -, h⟩ := except_bind_ok h
  exact ⟨a9, a10, a11, a12, (Except.ok.inj h).symm⟩

theorem processResponse_ok (raw : String) (e : EvalRecord)
    (h : processResponse raw = Except.ok e) :
    ∃ r sv iv mv, e = finishEvaluation r sv iv mv := by
  unfold processResponse at h
  split at h
  · exact absurd h (by simp)
  · exact buildEvaluation_ok _ _ h

theorem processResponse_ok_rating (raw : String) (e : EvalRecord)
    (h : processResponse raw = Except.ok e) :
    (e.rating = PyFloat.nan ∨ ratingInBounds e.rating = true) ∧
    pyRound2F e.rating = e.rating ∧ clampRatingF e.rating = e.rating := by
  obtain ⟨r, sv, iv, mv, rfl⟩ := processResponse_ok raw e h
  exact finishEvaluation_rating r sv iv mv

theorem fallbackEvaluation_rating (answer : String) :
    1 ≤ (fallbackEvaluation answer).rating ∧ (fallbackEvaluation answer).rating ≤ 10 := by
  unfold fallbackEvaluation
  dsimp only
  split_ifs <;> norm_num

theorem fallbackRecord_rating (answer : String) :
    ratingInBounds (fallbackRecord answer).rating = true := by
  obtain ⟨h1, h2⟩ := fallbackEvaluation_rating answer
  simp [fallbackRecord, ratingInBounds, Bool.and_eq_true, decide_eq_true_eq]
  exact ⟨h1, h2⟩

/-! ### Invariants of the session trace -/

theorem runPairs_invariant (L : List (String × String × Evaluation)) :
    ∀ s : Session,
      (runPairs s L).questionCount = s.questionCount + L.length ∧
      (runPairs s L).interviewHistory.length = s.interviewHistory.length + L.length ∧
      (runPairs s L).language = s.language ∧
      (runPairs s L).hinglishMode = s.hinglishMode ∧
      (runPairs s L).modelId = s.modelId := by
  induction L with
  | nil => intro s; simp [runPairs]
  | cons p rest ih =>
    intro s
    obtain ⟨q, a, ev⟩ := p
    obtain ⟨h1, h2, h3, h4, h5⟩ := ih ((evaluateAnswerEndpoint (nextQuestionOp s q) (some a) ev).1)
    refine ⟨?_, ?_, ?_, ?_, ?_⟩ <;> simp only [runPairs, List.length_cons]
    · rw [h1]
      simp only [evaluateAnswerEndpoint, nextQuestionOp]
      omega
    · rw [h2]
      simp only [evaluateAnswerEndpoint, nextQuestionOp, List.length_append,
        List.length_cons, List.length_nil]
      omega
    · rw [h3]
      simp only [evaluateAnswerEndpoint, nextQuestionOp]
    · rw [h4]
      simp only [evaluateAnswerEndpoint, nextQuestionOp]
    · rw [h5]
      simp only [evaluateAnswerEndpoint, nextQuestionOp]

/-! ### Claim theorems -/

/-- Claim C2: the difficulty update after a scored answer is a pure
function of (current difficulty, rating) over EASY < MEDIUM < HARD:
`rating > 7.0` steps up one level (no-op at HARD), `rating < 4.0` steps
down one level (no-op at EASY), and `4.0 ≤ rating ≤ 7.0` (both bounds
inclusive) leaves it unchanged; in particular
`nextDifficulty(EASY, 8.0) = MEDIUM`, `nextDifficulty(HARD, 9.0) = HARD`,
`nextDifficulty(EASY, 2.0) = EASY`, `nextDifficulty(MEDIUM, 5.5) = MEDIUM`. -/
theorem difficulty_step_pure_c2 : ∀ r : ℚ,
    nextDifficulty "Easy" r = (if 7 < r then "Medium" else "Easy") ∧
    nextDifficulty "Medium" r =
      (if 7 < r then "Hard" else if r < 4 then "Easy" else "Medium") ∧
    nextDifficulty "Hard" r = (if r < 4 then "Medium" else "Hard") ∧
    nextDifficulty "Easy" 8 = "Medium" ∧
    nextDifficulty "Hard" 9 = "Hard" ∧
    nextDifficulty "Easy" 2 = "Easy" ∧
    nextDifficulty "Medium" (11 / 2) = "Medium" := by
  intro r
  refine ⟨?_, ?_, ?_, by rfl, by rfl, by rfl, by
    unfold nextDifficulty
    dsimp only
    rw [show difficultyOrder.indexOf "Medium" = 1 from by decide]
    norm_num [difficultyOrder]⟩
  · unfold nextDifficulty
    dsimp only
    rw [show difficultyOrder.indexOf "Easy" = 0 from by decide]
    norm_num [difficultyOrder]
  · unfold nextDifficulty
    dsimp only
    rw [show difficultyOrder.indexOf "Medium" = 1 from by decide]
    norm_num [difficultyOrder]
  · unfold nextDifficulty
    dsimp only
    rw [show difficultyOrder.indexOf "Hard" = 2 from by decide]
    norm_num [difficultyOrder]
    intro h
    rw [if_neg (by linarith)]

/-- Claim C3: the Tier-3 fallback evaluation is a deterministic pure
function of the answer text alone: a "don't know" phrase in the
lower-cased answer or word count < 3 gives rating exactly 1.50,
otherwise word count < 10 gives 3.00, word count < 30 gives 5.00, and
anything longer gives 6.00; `missing_points` is always the fixed
"unable to parse" sentinel; e.g. "idk" gives 1.50 and a 15-word
substantive answer gives 5.00. -/
theorem fallback_tiers_c3 : ∀ answer : String,
    (fallbackEvaluation answer).rating =
      (if dontKnowPhrases.any (fun p => strContains (pyStrip (pyLower answer)) p)
          ∨ pyWordCount answer < 3 then 3 / 2
       else if pyWordCount answer < 10 then 3
       else if pyWordCount answer < 30 then 5
       else 6) ∧
    (fallbackEvaluation answer).missing_points = fallbackMissingPoints ∧
    (fallbackEvaluation "idk").rating = 3 / 2 ∧
    (fallbackEvaluation
      "Indexes speed up reads by letting the database locate rows without scanning the whole table first").rating
      = 5 := by
  intro answer
  refine ⟨?_, ?_, by rfl, by rfl⟩ <;>
    · unfold fallbackEvaluation
      dsimp only
      split_ifs <;> rfl

/-- Claim C5: conversation-memory pruning is FIFO watermark eviction:
with strictly more than 20 stored messages exactly the 10 oldest are
removed and the rest keep their order (the result is a suffix); with 22
entries exactly the 12 most recent remain in order; with at most 20
entries the sequence is unchanged. -/
theorem memory_pruning_c5 : ∀ messages : List String,
    (messages.length ≤ 20 → manageMemoryThreshold messages = messages) ∧
    (20 < messages.length →
      manageMemoryThreshold messages = messages.drop 10 ∧
      (manageMemoryThreshold messages).length = messages.length - 10 ∧
      manageMemoryThreshold messages <:+ messages) ∧
    (messages.length = 22 →
      (manageMemoryThreshold messages).length = 12 ∧
      manageMemoryThreshold messages = messages.drop 10) := by
  intro messages
  refine ⟨fun hle => ?_, fun hgt => ?_, fun h22 => ?_⟩
  · unfold manageMemoryThreshold
    rw [if_neg (by omega)]
  · unfold manageMemoryThreshold
    rw [if_pos hgt]
    exact ⟨rfl, by rw [List.length_drop], List.drop_suffix 10 messages⟩
  · unfold manageMemoryThreshold
    rw [if_pos (by omega)]
    exact ⟨by rw [List.length_drop, h22], rfl⟩

/-- Witness for C5: a 22-element sequence prunes to its 12 most recent
elements, and a 5-element sequence is untouched. -/
theorem memory_pruning_c5_witness :
    manageMemoryThreshold (List.replicate 5 "m") = List.replicate 5 "m" ∧
    (manageMemoryThreshold (List.replicate 22 "m")).length = 12 ∧
    manageMemoryThreshold (List.replicate 22 "m") = (List.replicate 22 "m").drop 10 :=
  ⟨(memory_pruning_c5 (List.replicate 5 "m")).1 (by simp),
   ((memory_pruning_c5 (List.replicate 22 "m")).2.2 (by simp)).1,
   ((memory_pruning_c5 (List.replicate 22 "m")).2.2 (by simp)).2⟩

/-- Claim C1 counterexample: both conjuncts are raw model texts on which
the claim fails.  First, the raw text "5" is a JSON value, yet both
attempts raise `TypeError` at `'missing_points' in evaluation`
(line 234), which the `except (json.JSONDecodeError, ValueError)`
handler does not catch; on the last attempt line 311 re-raises it, so
`evaluate_answer` raises to its caller instead of returning a record.
Second, a model text whose rating is the `NaN` literal (accepted by
`json.loads` by default) parses and validates, passes the
`rating < 1.0 or rating > 10.0` clamp test unclamped, and is returned
with rating `nan`, outside [1.00, 10.00]. -/
theorem never_raises_c1_cex :
    evaluateAnswerLoop "5" "5" "some answer" =
      Except.error (PyErr.typeError "argument of type 'int' is not iterable") ∧
    evaluateAnswerLoop nanRatingRaw nanRatingRaw "some answer" =
      Except.ok (finishEvaluation PyFloat.nan
        (JsonVal.str "s") (JsonVal.str "i") (JsonVal.str "N/A")) ∧
    (finishEvaluation PyFloat.nan (JsonVal.str "s") (JsonVal.str "i")
        (JsonVal.str "N/A")).rating = PyFloat.nan ∧
    ratingInBounds PyFloat.nan = false := by
  exact ⟨rfl, rfl, rfl, rfl⟩

/-- Claim C1 (amended): for raw model texts whose processing failures
are `json.JSONDecodeError`s or `ValueError`s — which covers the empty
string, truncated code fences, non-JSON prose, and JSON objects with
missing required fields or non-numeric string ratings — the retry loop
never raises and, after at most 2 attempts, returns a structurally valid
four-field record whose rating is `NaN` when the model supplied a `NaN`
rating (which `json.loads` and `float('nan')` accept and the
out-of-range clamp passes through) and otherwise lies in [1, 10]; but
when the final attempt fails with any other exception (a `TypeError`
from a JSON value that is not an object or from an object whose rating
is null, a list or an object, or a `RecursionError` from nesting beyond
the interpreter recursion limit), that exception is re-raised to the
caller. -/
theorem never_raises_c1 : ∀ raw1 raw2 answer : String,
    match evaluateAnswerLoop raw1 raw2 answer with
    | Except.ok e => e.rating = PyFloat.nan ∨ ratingInBounds e.rating = true
    | Except.error err => err.caughtAsParse = false := by
  intro raw1 raw2 answer
  cases h1 : processResponse raw1 with
  | ok e =>
    have hl : evaluateAnswerLoop raw1 raw2 answer = Except.ok e := by
      unfold evaluateAnswerLoop
      rw [h1]
    rw [hl]
    exact (processResponse_ok_rating _ _ h1).1
  | error e1 =>
    cases h2 : processResponse raw2 with
    | ok e =>
      have hl : evaluateAnswerLoop raw1 raw2 answer = Except.ok e := by
        unfold evaluateAnswerLoop
        rw [h1, h2]
      rw [hl]
      exact (processResponse_ok_rating _ _ h2).1
    | error e2 =>
      by_cases hc : e2.caughtAsParse = true
      · have hl : evaluateAnswerLoop raw1 raw2 answer =
            Except.ok (fallbackRecord answer) := by
          unfold evaluateAnswerLoop
          rw [h1, h2]
          dsimp only
          rw [if_pos hc]
        rw [hl]
        exact Or.inr (fallbackRecord_rating answer)
      · have hl : evaluateAnswerLoop raw1 raw2 answer = Except.error e2 := by
          unfold evaluateAnswerLoop
          rw [h1, h2]
          dsimp only
          rw [if_neg hc]
        rw [hl]
        exact Bool.not_eq_true _ |>.mp hc

/-- Claim C4 counterexample: the parsed record with rating 5.123 passes
parsing and field-presence validation, the value actually returned is
`round(clamp(5.123), 2) = 5.12`, and `round(clamp(r), 2) == clamp(r)`
fails for this parsed rating `r = 5.123`; moreover a validated record
with rating `NaN` (the `NaN` literal is accepted by `json.loads`)
bypasses the clamp entirely and is returned with rating `nan`, outside
[1.00, 10.00]. -/
theorem rating_clamp_round_c4_cex :
    buildEvaluation c4parsed =
      Except.ok (finishEvaluation (PyFloat.finite (5123 / 1000))
        (JsonVal.str "s") (JsonVal.str "i") (JsonVal.str "N/A")) ∧
    (finishEvaluation (PyFloat.finite (5123 / 1000)) (JsonVal.str "s") (JsonVal.str "i")
        (JsonVal.str "N/A")).rating = PyFloat.finite (pyRound2 (clampRating (5123 / 1000))) ∧
    pyRound2 (clampRating (5123 / 1000)) ≠ clampRating (5123 / 1000) ∧
    buildEvaluation c4nanParsed =
      Except.ok (finishEvaluation PyFloat.nan
        (JsonVal.str "s") (JsonVal.str "i") (JsonVal.str "N/A")) ∧
    (finishEvaluation PyFloat.nan (JsonVal.str "s") (JsonVal.str "i")
        (JsonVal.str "N/A")).rating = PyFloat.nan := by
  refine ⟨by rfl, ?_, ?_, by rfl, by rfl⟩
  · show pyRound2F (clampRatingF (PyFloat.finite (5123 / 1000))) =
      PyFloat.finite (pyRound2 (clampRating (5123 / 1000)))
    rw [clampRatingF_finite]
    rfl
  · norm_num [pyRound2, roundHalfEven, clampRating, Int.fract, round_eq]

/-- Claim C4 (amended): for every evaluation record that passes parsing
and field-presence validation, the returned rating `round(clamp(r), 2)`
is a fixed point of both `round(·, 2)` and `clamp` (rounding is
idempotent on the value actually returned), and it lies in
[1.00, 10.00] unless the parsed rating was the float `NaN` — which both
clamp comparisons pass through, so the record is returned with rating
`NaN` — while the literal equation `round(clamp(r), 2) == clamp(r)`
fails for in-range ratings that are not 2-decimal multiples, e.g.
r = 5.123. -/
theorem rating_clamp_round_c4 : ∀ (r : PyFloat) (parsed : JsonVal) (e : EvalRecord),
    ((pyRound2F (clampRatingF r) = PyFloat.nan ↔ r = PyFloat.nan) ∧
     (r ≠ PyFloat.nan → ratingInBounds (pyRound2F (clampRatingF r)) = true) ∧
     pyRound2F (pyRound2F (clampRatingF r)) = pyRound2F (clampRatingF r) ∧
     clampRatingF (pyRound2F (clampRatingF r)) = pyRound2F (clampRatingF r)) ∧
    (buildEvaluation parsed = Except.ok e →
      (e.rating = PyFloat.nan ∨ ratingInBounds e.rating = true) ∧
      pyRound2F e.rating = e.rating ∧ clampRatingF e.rating = e.rating) := by
  intro r parsed e
  refine ⟨returnedRatingF_props r, fun h => ?_⟩
  obtain ⟨r2, sv, iv, mv, rfl⟩ := buildEvaluation_ok parsed e h
  exact finishEvaluation_rating r2 sv iv mv

/-- Witness for C4 (amended): the record parsed from rating 5.123 has an
in-range returned rating and satisfies both fixed-point properties. -/
theorem rating_clamp_round_c4_witness :
    ratingInBounds (pyRound2F (clampRatingF (PyFloat.finite (5123 / 1000)))) = true ∧
    ((finishEvaluation (PyFloat.finite (5123 / 1000)) (JsonVal.str "s") (JsonVal.str "i")
        (JsonVal.str "N/A")).rating = PyFloat.nan ∨
      ratingInBounds (finishEvaluation (PyFloat.finite (5123 / 1000)) (JsonVal.str "s")
        (JsonVal.str "i") (JsonVal.str "N/A")).rating = true) ∧
    pyRound2F (finishEvaluation (PyFloat.finite (5123 / 1000)) (JsonVal.str "s")
        (JsonVal.str "i") (JsonVal.str "N/A")).rating =
      (finishEvaluation (PyFloat.finite (5123 / 1000)) (JsonVal.str "s") (JsonVal.str "i")
        (JsonVal.str "N/A")).rating ∧
    clampRatingF (finishEvaluation (PyFloat.finite (5123 / 1000)) (JsonVal.str "s")
        (JsonVal.str "i") (JsonVal.str "N/A")).rating =
      (finishEvaluation (PyFloat.finite (5123 / 1000)) (JsonVal.str "s") (JsonVal.str "i")
        (JsonVal.str "N/A")).rating :=
  ⟨(rating_clamp_round_c4 (PyFloat.finite (5123 / 1000)) c4parsed
      (finishEvaluation (PyFloat.finite (5123 / 1000)) (JsonVal.str "s") (JsonVal.str "i")
        (JsonVal.str "N/A"))).1.2.1 (by decide),
   ((rating_clamp_round_c4 (PyFloat.finite (5123 / 1000)) c4parsed
      (finishEvaluation (PyFloat.finite (5123 / 1000)) (JsonVal.str "s") (JsonVal.str "i")
        (JsonVal.str "N/A"))).2 (by rfl)).1,
   ((rating_clamp_round_c4 (PyFloat.finite (5123 / 1000)) c4parsed
      (finishEvaluation (PyFloat.finite (5123 / 1000)) (JsonVal.str "s") (JsonVal.str "i")
        (JsonVal.str "N/A"))).2 (by rfl)).2.1,
   ((rating_clamp_round_c4 (PyFloat.finite (5123 / 1000)) c4parsed
      (finishEvaluation (PyFloat.finite (5123 / 1000)) (JsonVal.str "s") (JsonVal.str "i")
        (JsonVal.str "N/A"))).2 (by rfl)).2.2⟩

/-- Claim C6 counterexample: a recordAnswer that succeeds leaves the
pending `current_question` in place — `/api/evaluate` never clears
`session['current_question']`, so after a successful evaluation the
session still holds the answered question as pending. -/
theorem pending_question_c6_cex :
    apiIsOk (evaluateAnswerEndpoint pendingSession (some "my answer") sampleEval).2 = true ∧
    (evaluateAnswerEndpoint pendingSession (some "my answer") sampleEval).1.currentQuestion =
      some "Q1" := by
  exact ⟨rfl, rfl⟩

/-- Claim C6 (amended): the session holds at most one pending question
(a single `current_question` slot), an answer can only be recorded while
a current question exists, and `nextQuestion` replaces any existing
pending question with the new one; but a successful recordAnswer leaves
`current_question` unchanged rather than clearing it — the pending
question is only replaced by the next `nextQuestion` call. -/
theorem pending_question_c6 : ∀ (s : Session) (a q : String) (ev : Evaluation),
    (apiIsOk (evaluateAnswerEndpoint s (some a) ev).2 = true →
      (evaluateAnswerEndpoint s (some a) ev).1.currentQuestion = s.currentQuestion ∧
      s.currentQuestion.isSome = true) ∧
    (nextQuestionOp s q).currentQuestion = some q := by
  intro s a q ev
  refine ⟨fun h => ?_, rfl⟩
  cases hc : s.currentQuestion with
  | none =>
    rw [show evaluateAnswerEndpoint s (some a) ev =
        (s, Except.error (ApiError.badRequest "No active question to evaluate")) from by
      unfold evaluateAnswerEndpoint
      rw [hc]] at h
    exact absurd h (by simp [apiIsOk])
  | some qq =>
    constructor
    · unfold evaluateAnswerEndpoint
      rw [hc]
    · rfl

/-- Witness for C6 (amended): with the pending question `Q1` present,
the recorded answer succeeds and the pending question is retained. -/
theorem pending_question_c6_witness :
    (evaluateAnswerEndpoint pendingSession (some "a2") sampleEval).1.currentQuestion =
      pendingSession.currentQuestion ∧
    pendingSession.currentQuestion.isSome = true :=
  (pending_question_c6 pendingSession "a2" "q" sampleEval).1 (by rfl)

/-- Claim C7: calling recordAnswer with no pending current question (in
particular on a freshly started session, before any nextQuestion) yields
the recoverable 400 error response naming the missing precondition, no
evaluation is recorded, and the session (history, difficulty, counters)
is returned unchanged. -/
theorem record_answer_invalid_state_c7 :
    ∀ (s : Session) (a : String) (ev : Evaluation)
      (summary role difficulty modelId language : String)
      (sttMode : Option String) (hm : Option Bool),
    (s.currentQuestion = none →
      evaluateAnswerEndpoint s (some a) ev =
        (s, Except.error (ApiError.badRequest "No active question to evaluate"))) ∧
    (startInterview (Session.afterUpload summary) role difficulty modelId language
        sttMode hm).currentQuestion = none := by
  intro s a ev summary role difficulty modelId language sttMode hm
  refine ⟨fun h => ?_, rfl⟩
  unfold evaluateAnswerEndpoint
  rw [h]

/-- Witness for C7: a freshly started session rejects recordAnswer with
the invalid-state error and is left unchanged. -/
theorem record_answer_invalid_state_c7_witness :
    evaluateAnswerEndpoint startedSession (some "my answer") sampleEval =
      (startedSession, Except.error (ApiError.badRequest "No active question to evaluate")) ∧
    startedSession.currentQuestion = none :=
  ⟨(record_answer_invalid_state_c7 startedSession "my answer" sampleEval
      "resume summary" "Data Scientist" "Easy" "gemini-2.5-flash" "en" none none).1 rfl,
   (record_answer_invalid_state_c7 startedSession "my answer" sampleEval
      "resume summary" "Data Scientist" "Easy" "gemini-2.5-flash" "en" none none).2⟩

/-- Claim C8 counterexample: right after the first nextQuestion of a
fresh session the turn counter is 1 while the history is still empty, so
`turnCount == len(history)` does not hold after every nextQuestion. -/
theorem turn_counter_c8_cex :
    (nextQuestionOp startedSession "Q1").questionCount = 1 ∧
    (nextQuestionOp startedSession "Q1").interviewHistory.length = 0 ∧
    (nextQuestionOp startedSession "Q1").questionCount ≠
      (nextQuestionOp startedSession "Q1").interviewHistory.length := by
  refine ⟨rfl, rfl, ?_⟩
  intro h
  simp [nextQuestionOp, startedSession, startInterview, Session.afterUpload] at h

/-- Claim C8 (amended): the turn counter counts questions issued, being
incremented at `nextQuestion` while history is appended at
`recordAnswer`: in an alternating session `turnCount == len(history)`
holds after every completed recordAnswer, and after a nextQuestion
`turnCount == len(history) + 1` (not `len(history)`). -/
theorem turn_counter_c8 :
    ∀ (summary role difficulty modelId language : String)
      (sttMode : Option String) (hm : Option Bool)
      (L : List (String × String × Evaluation)) (q : String),
    (runPairs (startInterview (Session.afterUpload summary) role difficulty modelId
        language sttMode hm) L).questionCount =
      (runPairs (startInterview (Session.afterUpload summary) role difficulty modelId
        language sttMode hm) L).interviewHistory.length ∧
    (nextQuestionOp (runPairs (startInterview (Session.afterUpload summary) role difficulty
        modelId language sttMode hm) L) q).questionCount =
      (nextQuestionOp (runPairs (startInterview (Session.afterUpload summary) role difficulty
        modelId language sttMode hm) L) q).interviewHistory.length + 1 := by
  intro summary role difficulty modelId language sttMode hm L q
  obtain ⟨h1, h2, -, -, -⟩ :=
    runPairs_invariant L
      (startInterview (Session.afterUpload summary) role difficulty modelId language sttMode hm)
  have hbase : (startInterview (Session.afterUpload summary) role difficulty modelId
      language sttMode hm).questionCount = 0 := rfl
  have hbase2 : (startInterview (Session.afterUpload summary) role difficulty modelId
      language sttMode hm).interviewHistory.length = 0 := rfl
  constructor
  · rw [h1, h2, hbase, hbase2]
  · show (runPairs _ L).questionCount + 1 = (runPairs _ L).interviewHistory.length + 1
    rw [h1, h2, hbase, hbase2]

/-- Claim C9: report finalization fails exactly when the session history
is empty (its only precondition in the deterministic state machine), and
for a non-empty history the bundle's average rating is the arithmetic
mean of all turn ratings. -/
theorem finalize_report_c9 : ∀ (s : Session) (summary : String),
    (generateReport s summary =
        Except.error (ApiError.badRequest "No interview data available") ↔
      s.interviewHistory = []) ∧
    (∀ b : ReportBundle, generateReport s summary = Except.ok b →
      s.interviewHistory ≠ [] ∧
      b.avgRating =
        (s.interviewHistory.map HistoryEntry.rating).sum / (s.interviewHistory.length : ℚ)) := by
  intro s summary
  unfold generateReport
  split
  · rename_i h
    exact ⟨iff_of_true rfl h, fun b hb => absurd hb (by simp)⟩
  · rename_i h
    refine ⟨iff_of_false (by simp) h, fun b hb => ⟨h, ?_⟩⟩
    rw [← Except.ok.inj hb]

/-- Witness for C9: for recorded ratings 8.2, 3.0 and 5.0 the bundle is
produced and its average rating is (8.2 + 3.0 + 5.0)/3 = 5.40. -/
theorem finalize_report_c9_witness :
    sampleReportSession.interviewHistory ≠ [] ∧
    sampleBundle.avgRating =
      (sampleReportSession.interviewHistory.map HistoryEntry.rating).sum /
        (sampleReportSession.interviewHistory.length : ℚ) ∧
    sampleBundle.avgRating = 27 / 5 := by
  refine ⟨((finalize_report_c9 sampleReportSession "overall").2 sampleBundle (by rfl)).1,
    ((finalize_report_c9 sampleReportSession "overall").2 sampleBundle (by rfl)).2, ?_⟩
  show (sampleHistory.map HistoryEntry.rating).sum / (sampleHistory.length : ℚ) = 27 / 5
  norm_num [sampleHistory]

/-- Claim C10: when hinglishMode is set at interview start the session
language is overwritten to `hi` regardless of the supplied language,
this language persists across every subsequent question/answer round,
and it selects the Hindi prompt templates for question generation and
for answer evaluation (per provider); with hinglishMode unset (or
absent) the supplied language is stored unchanged. -/
theorem hinglish_override_c10 :
    ∀ (s : Session) (role difficulty modelId language m : String)
      (sttMode : Option String) (L : List (String × String × Evaluation)),
    (startInterview s role difficulty modelId language sttMode (some true)).language = "hi" ∧
    (startInterview s role difficulty modelId language sttMode (some false)).language =
      language ∧
    (startInterview s role difficulty modelId language sttMode none).language = language ∧
    (runPairs (startInterview s role difficulty modelId language sttMode (some true)) L).language
      = "hi" ∧
    questionPromptFor
      (runPairs (startInterview s role difficulty modelId language sttMode (some true))
        L).language = PromptId.questionHI ∧
    evalPromptFor
      (runPairs (startInterview s role difficulty modelId language sttMode (some true))
        L).language m =
      (if strContains (pyLower m) "gemini" then PromptId.evalHIGemini
       else PromptId.evalHIOpenrouter) := by
  intro s role difficulty modelId language m sttMode L
  have hlang :=
    (runPairs_invariant L (startInterview s role difficulty modelId language sttMode
      (some true))).2.2.1
  have hstart : (startInterview s role difficulty modelId language sttMode
      (some true)).language = "hi" := rfl
  refine ⟨rfl, rfl, rfl, ?_, ?_, ?_⟩
  · rw [hlang, hstart]
  · rw [hlang, hstart]
    rfl
  · rw [hlang, hstart]
    unfold evalPromptFor
    dsimp only
    rw [if_pos rfl]
